import Mathlib

/-!
Shallow embedding of the `auth` package of irvifa/spotify-api-client-go
(`internal/auth/authenticator.go` and the functional-options file), together
with proofs of the specified properties.

Go mutation is modelled by explicit state passing: each Go method on
`*Authenticator` becomes a Lean function returning its result paired with the
(possibly updated) authenticator.  Query parameters of the callback request are
modelled as an association list read in first-match order, matching
`url.Values.Get`.  The external `golang.org/x/oauth2` library is not part of
this repository; the two points where the package calls into it
(`AuthCodeURL`, `Exchange`) are modelled from the spec, as documented on the
corresponding definitions.
-/

namespace Spotify

/-- Spotify authorization endpoint constant (`AuthURL` in `authenticator.go`). -/
def AuthURL : String := "https://accounts.spotify.com/authorize"

/-- Spotify token endpoint constant (`TokenURL` in `authenticator.go`). -/
def TokenURL : String := "https://accounts.spotify.com/api/token"

/-- The error values of `authenticator.go`.  `authFailed` carries the
provider-reported message that `fmt.Errorf("%w: %s", ErrAuthFailed, err)`
wraps; `tokenExchangeFailed` carries the underlying cause wrapped by
`fmt.Errorf("spotify: token exchange failed: %w", err)`. -/
inductive SpotifyError where
  | authFailed (providerMsg : String)
  | noAccessCode
  | stateMismatch
  | missingClientID
  | missingClientSec
  | tokenExchangeFailed (cause : String)
deriving DecidableEq, Repr

/-- The fields of Go `http.Client` relevant to this package: a transport
(abstracted to an identity tag, `none` for the zero value) and a timeout
(`time.Duration`, nanoseconds as `Nat`, `0` for the zero value). -/
structure HTTPClient where
  transport : Option Nat
  timeout : Nat
deriving DecidableEq, Repr

/-- `http.DefaultClient`: zero transport, zero timeout. -/
def defaultClient : HTTPClient := { transport := none, timeout := 0 }

/-- The fields of `oauth2.Config` used by this package. -/
structure OAuthConfig where
  clientID : String
  clientSecret : String
  redirectURL : String
  scopes : List String
  endpointAuthURL : String
  endpointTokenURL : String
deriving DecidableEq, Repr

/-- `Authenticator`: an OAuth configuration plus an HTTP client handle. -/
structure Authenticator where
  config : OAuthConfig
  client : HTTPClient
deriving DecidableEq, Repr

/-- An OAuth2 token (`oauth2.Token`): access token, token type, refresh
token, expiry. -/
structure OAuthToken where
  accessToken : String
  tokenType : String
  refreshToken : String
  expiresIn : Nat
deriving DecidableEq, Repr

/-- The process environment as read by `New`:
`SPOTIFY_CLIENT_ID` and `SPOTIFY_CLIENT_SECRET`. -/
structure Env where
  clientID : String
  clientSecret : String
deriving DecidableEq, Repr

/-- The functional options of the options file (`Option func(*Authenticator)`),
as a syntactic datatype so that theorems can speak about which option appears
where in the argument list. -/
inductive Opt where
  | withClientID (id : String)
  | withClientSecret (secret : String)
  | withRedirectURL (url : String)
  | withScopes (scopes : List String)
  | withHTTPClient (client : HTTPClient)
  | withTimeout (t : Nat)
deriving DecidableEq, Repr

/-- Semantics of one option, field for field from the options file.
`withTimeout` builds a fresh `http.Client` carrying only the timeout and
installs it through `WithHTTPClient`, exactly as the Go code does. -/
def applyOpt : Opt → Authenticator → Authenticator
  | .withClientID id, a => { a with config := { a.config with clientID := id } }
  | .withClientSecret secret, a =>
      { a with config := { a.config with clientSecret := secret } }
  | .withRedirectURL url, a => { a with config := { a.config with redirectURL := url } }
  | .withScopes scopes, a => { a with config := { a.config with scopes := scopes } }
  | .withHTTPClient client, a => { a with client := client }
  | .withTimeout t, a => { a with client := { transport := none, timeout := t } }

/-- `for _, opt := range opts { opt(auth) }`. -/
def applyOpts (opts : List Opt) (a : Authenticator) : Authenticator :=
  opts.foldl (fun a o => applyOpt o a) a

/-- The authenticator value built by `New` before option application: a
config holding the endpoint constants and the redirect URL (zero values
elsewhere) and `http.DefaultClient`. -/
def initialAuth (redirectURL : String) : Authenticator :=
  { config :=
      { clientID := ""
        clientSecret := ""
        redirectURL := redirectURL
        scopes := []
        endpointAuthURL := AuthURL
        endpointTokenURL := TokenURL }
    client := defaultClient }

/-- The authenticator `New` holds just before validation: options applied in
order, then the environment values overridden by any non-empty option-set
credential (`if auth.config.ClientID != "" { clientID = auth.config.ClientID }`
and the symmetric check for the secret). -/
def resolveNew (env : Env) (redirectURL : String) (opts : List Opt) : Authenticator :=
  let auth := applyOpts opts (initialAuth redirectURL)
  let clientID := if auth.config.clientID ≠ "" then auth.config.clientID else env.clientID
  let clientSecret :=
    if auth.config.clientSecret ≠ "" then auth.config.clientSecret else env.clientSecret
  { auth with config := { auth.config with clientID := clientID, clientSecret := clientSecret } }

/-- `New`: resolve credentials, then validate: empty client ID fails with
`ErrMissingClientID`, otherwise empty secret fails with `ErrMissingClientSec`,
otherwise the resolved authenticator is returned. -/
def New (env : Env) (redirectURL : String) (opts : List Opt) :
    Except SpotifyError Authenticator :=
  let auth := resolveNew env redirectURL opts
  if auth.config.clientID = "" then .error .missingClientID
  else if auth.config.clientSecret = "" then .error .missingClientSec
  else .ok auth

/-- Modelled from the spec: the external OAuth2 library's authorization-URL
builder `oauth2.Config.AuthCodeURL`, whose source is not part of this
repository.  Per the spec the returned URL embeds the client identifier, the
redirect URL, the scopes, the caller-supplied state string, and (when the
offline access option is passed) an offline-access request marker. -/
def authCodeURL (cfg : OAuthConfig) (state : String) (offline : Bool) : String :=
  cfg.endpointAuthURL ++ "?response_type=code" ++
    "&client_id=" ++ cfg.clientID ++
    "&redirect_uri=" ++ cfg.redirectURL ++
    "&scope=" ++ String.intercalate " " cfg.scopes ++
    "&state=" ++ state ++
    (if offline then "&access_type=offline" else "")

/-- The `AuthURL` method: if scopes are supplied they replace the stored
scope set (a mutation of the receiver, hence the returned authenticator);
the URL is always built with the offline-access option
(`oauth2.AccessTypeOffline`). -/
def Authenticator.AuthURL (a : Authenticator) (state : String) (scopes : List String) :
    String × Authenticator :=
  let a := if scopes.length > 0
    then { a with config := { a.config with scopes := scopes } } else a
  (authCodeURL a.config state true, a)

/-- `url.Values.Get`: the first value recorded for the key, or the empty
string when the key is absent. -/
def getQuery (query : List (String × String)) (key : String) : String :=
  match query.find? (fun p => p.1 = key) with
  | some p => p.2
  | none => ""

/-- The `Token` method.  The callback request is represented by its query
parameters; the external `oauth2.Config.Exchange` call (modelled from the
spec: a network exchange of the code against the token endpoint, not part of
this repository) is a function argument receiving the authenticator's HTTP
client, mirroring `context.WithValue(ctx, oauth2.HTTPClient, a.client)`.
The checks run in source order: `error` parameter, empty `code`, `state`
mismatch, then the exchange, whose failure is wrapped as
`tokenExchangeFailed`.  The method assigns no field of the receiver, so the
returned authenticator is the receiver itself. -/
def Authenticator.Token (a : Authenticator) (state : String)
    (query : List (String × String))
    (exchange : HTTPClient → String → Except String OAuthToken) :
    Except SpotifyError OAuthToken × Authenticator :=
  let errParam := getQuery query "error"
  if errParam ≠ "" then (.error (.authFailed errParam), a)
  else
    let code := getQuery query "code"
    if code = "" then (.error .noAccessCode, a)
    else
      let actualState := getQuery query "state"
      if actualState ≠ state then (.error .stateMismatch, a)
      else
        match exchange a.client code with
        | .error e => (.error (.tokenExchangeFailed e), a)
        | .ok token => (.ok token, a)

/-- Modelled from the spec: the object returned by `oauth2.Config.Client` —
an HTTP client pre-configured to attach the token and to use the
authenticator's client for refresh calls. -/
structure AuthedClient where
  refreshClient : HTTPClient
  token : OAuthToken
deriving DecidableEq, Repr

/-- The `Client` method: wires the authenticator's HTTP client and the token
into the returned authenticated client.  It assigns no field of the
receiver, so the returned authenticator is the receiver itself. -/
def Authenticator.Client (a : Authenticator) (token : OAuthToken) :
    AuthedClient × Authenticator :=
  ({ refreshClient := a.client, token := token }, a)

/-- The `TokenSource` method: wires the authenticator's HTTP client and the
token into the returned refreshing token source (same data as
`AuthedClient`).  It assigns no field of the receiver, so the returned
authenticator is the receiver itself. -/
def Authenticator.TokenSource (a : Authenticator) (token : OAuthToken) :
    AuthedClient × Authenticator :=
  ({ refreshClient := a.client, token := token }, a)

/-- Does this option write `config.ClientID`? -/
def setsClientID : Opt → Bool
  | .withClientID _ => true
  | _ => false

/-- Does this option write `config.ClientSecret`? -/
def setsClientSecret : Opt → Bool
  | .withClientSecret _ => true
  | _ => false

/-! ### Concrete fixtures used by witnesses -/

/-- A concrete configuration mirroring the test setup of
`authenticator_test.go`. -/
def testConfig : OAuthConfig :=
  { clientID := "test-client-id"
    clientSecret := "test-client-secret"
    redirectURL := "http://localhost/callback"
    scopes := ["user-read-private"]
    endpointAuthURL := AuthURL
    endpointTokenURL := TokenURL }

/-- A concrete authenticator for witnesses. -/
def testAuth : Authenticator := { config := testConfig, client := defaultClient }

/-- The token the mocked endpoint of `authenticator_test.go` returns. -/
def testToken : OAuthToken :=
  { accessToken := "test-access-token"
    tokenType := "Bearer"
    refreshToken := "test-refresh-token"
    expiresIn := 3600 }

/-- A mocked token endpoint that answers every exchange with `testToken`. -/
def mockExchange : HTTPClient → String → Except String OAuthToken :=
  fun _ _ => .ok testToken

/-! ### Helper lemmas -/

theorem str_append_assoc (a b c : String) : a ++ b ++ c = a ++ (b ++ c) := by
  apply String.ext
  simp

theorem applyOpts_cons (o : Opt) (l : List Opt) (a : Authenticator) :
    applyOpts (o :: l) a = applyOpts l (applyOpt o a) := rfl

theorem applyOpts_append (l1 l2 : List Opt) (a : Authenticator) :
    applyOpts (l1 ++ l2) a = applyOpts l2 (applyOpts l1 a) :=
  List.foldl_append _ _ _ _

/-- Options that do not write `config.ClientID` leave it unchanged. -/
theorem applyOpt_clientID_frame (o : Opt) (a : Authenticator)
    (h : setsClientID o = false) :
    (applyOpt o a).config.clientID = a.config.clientID := by
  cases o <;> simp [applyOpt, setsClientID] at h ⊢

/-- Option lists that do not write `config.ClientID` leave it unchanged. -/
theorem applyOpts_clientID_frame (l : List Opt) (a : Authenticator)
    (h : ∀ o ∈ l, setsClientID o = false) :
    (applyOpts l a).config.clientID = a.config.clientID := by
  induction l generalizing a with
  | nil => rfl
  | cons o l ih =>
    rw [applyOpts_cons, ih _ (fun o hm => h o (List.mem_cons_of_mem _ hm)),
      applyOpt_clientID_frame o a (h o (List.mem_cons_self _ _))]

/-- Options that do not write `config.ClientSecret` leave it unchanged. -/
theorem applyOpt_clientSecret_frame (o : Opt) (a : Authenticator)
    (h : setsClientSecret o = false) :
    (applyOpt o a).config.clientSecret = a.config.clientSecret := by
  cases o <;> simp [applyOpt, setsClientSecret] at h ⊢

/-- Option lists that do not write `config.ClientSecret` leave it unchanged. -/
theorem applyOpts_clientSecret_frame (l : List Opt) (a : Authenticator)
    (h : ∀ o ∈ l, setsClientSecret o = false) :
    (applyOpts l a).config.clientSecret = a.config.clientSecret := by
  induction l generalizing a with
  | nil => rfl
  | cons o l ih =>
    rw [applyOpts_cons, ih _ (fun o hm => h o (List.mem_cons_of_mem _ hm)),
      applyOpt_clientSecret_frame o a (h o (List.mem_cons_self _ _))]

/-- `New` succeeds exactly with the resolved authenticator. -/
theorem New_ok_eq (env : Env) (r : String) (opts : List Opt) (a : Authenticator)
    (h : New env r opts = .ok a) : a = resolveNew env r opts := by
  simp only [New] at h
  split at h
  · exact absurd h (by simp)
  · split at h
    · exact absurd h (by simp)
    · exact (Except.ok.injEq _ _ ▸ h).symm

/-! ### Claim theorems -/

/-- C1: `Token` checks the callback query parameters in a fixed priority
order: a non-empty `error` parameter fails with the authentication-failed
error wrapping the provider's message regardless of the other parameters;
otherwise an absent or empty `code` fails with the no-access-code error;
otherwise a `state` different from the expected state fails with the
state-mismatch error; only when all three checks pass is the exchange
performed. -/
theorem token_checks_priority_order (a : Authenticator) (state : String)
    (query : List (String × String))
    (exchange : HTTPClient → String → Except String OAuthToken) :
    (getQuery query "error" ≠ "" →
      (a.Token state query exchange).1
        = .error (.authFailed (getQuery query "error"))) ∧
    (getQuery query "error" = "" → getQuery query "code" = "" →
      (a.Token state query exchange).1 = .error .noAccessCode) ∧
    (getQuery query "error" = "" → getQuery query "code" ≠ "" →
      getQuery query "state" ≠ state →
      (a.Token state query exchange).1 = .error .stateMismatch) ∧
    (getQuery query "error" = "" → getQuery query "code" ≠ "" →
      getQuery query "state" = state →
      (a.Token state query exchange).1
        = match exchange a.client (getQuery query "code") with
          | .error e => .error (.tokenExchangeFailed e)
          | .ok t => .ok t) := by
  refine ⟨?_, ?_, ?_, ?_⟩
  · intro h1
    simp [Authenticator.Token, h1]
  · intro h1 h2
    simp [Authenticator.Token, h1, h2]
  · intro h1 h2 h3
    simp [Authenticator.Token, h1, h2, h3]
  · intro h1 h2 h3
    cases hx : exchange a.client (getQuery query "code") <;>
      simp [Authenticator.Token, h1, h2, h3, hx]

/-- Witness for C1: each of the four branches exercised at a concrete
callback query. -/
theorem token_checks_priority_order_witness :
    ((testAuth.Token "s" [("error", "access_denied"), ("code", "c"), ("state", "s")]
        mockExchange).1 = .error (.authFailed "access_denied")) ∧
    ((testAuth.Token "s" [("state", "s")] mockExchange).1 = .error .noAccessCode) ∧
    ((testAuth.Token "s" [("code", "c"), ("state", "bad")] mockExchange).1
        = .error .stateMismatch) ∧
    ((testAuth.Token "s" [("code", "c"), ("state", "s")] mockExchange).1
        = .ok testToken) := by
  refine ⟨?_, ?_, ?_, ?_⟩
  · exact (token_checks_priority_order testAuth "s" _ mockExchange).1 (by decide)
  · exact (token_checks_priority_order testAuth "s" _ mockExchange).2.1 (by decide) (by decide)
  · exact (token_checks_priority_order testAuth "s" _ mockExchange).2.2.1
      (by decide) (by decide) (by decide)
  · have h := (token_checks_priority_order testAuth "s" [("code", "c"), ("state", "s")]
      mockExchange).2.2.2 (by decide) (by decide) (by decide)
    simpa [mockExchange] using h

/-- C2: with a non-empty `code`, matching `state` and no `error` parameter,
`Token` against an endpoint answering `resp` succeeds with a token whose
access and refresh tokens are the endpoint's values; when the exchange fails
with `cause`, the returned error wraps `cause` under the
token-exchange-failed error. -/
theorem token_exchange_result (a : Authenticator) (state : String)
    (query : List (String × String)) (resp : OAuthToken) (cause : String)
    (herr : getQuery query "error" = "") (hcode : getQuery query "code" ≠ "")
    (hstate : getQuery query "state" = state) :
    (∃ t, (a.Token state query (fun _ _ => .ok resp)).1 = .ok t ∧
      t.accessToken = resp.accessToken ∧ t.refreshToken = resp.refreshToken) ∧
    (a.Token state query (fun _ _ => .error cause)).1
      = .error (.tokenExchangeFailed cause) := by
  constructor
  · exact ⟨resp, by simp [Authenticator.Token, herr, hcode, hstate], rfl, rfl⟩
  · simp [Authenticator.Token, herr, hcode, hstate]

/-- Witness for C2 at the concrete callback of `authenticator_test.go`. -/
theorem token_exchange_result_witness :
    (∃ t, (testAuth.Token "test-state"
        [("state", "test-state"), ("code", "test-code")]
        (fun _ _ => .ok testToken)).1 = .ok t ∧
      t.accessToken = testToken.accessToken ∧
      t.refreshToken = testToken.refreshToken) ∧
    (testAuth.Token "test-state" [("state", "test-state"), ("code", "test-code")]
        (fun _ _ => .error "network down")).1
      = .error (.tokenExchangeFailed "network down") :=
  token_exchange_result testAuth "test-state"
    [("state", "test-state"), ("code", "test-code")] testToken "network down"
    (by decide) (by decide) (by decide)

/-- C9: calling `AuthURL` with no explicit scopes leaves the authenticator
unchanged, and the returned URL is built from the previously configured
scope set. -/
theorem authURL_no_scopes_frame (a : Authenticator) (state : String) :
    (a.AuthURL state []).2 = a ∧
    (a.AuthURL state []).1 = authCodeURL a.config state true := by
  constructor <;> simp [Authenticator.AuthURL]

/-- C10: `WithTimeout` installs a freshly built client carrying only the
given timeout (zero-value transport), discarding whatever client was
installed before; hence of `WithHTTPClient` and `WithTimeout`, the one
applied later determines the final client. -/
theorem withTimeout_replaces_client (a : Authenticator) (c : HTTPClient) (t : Nat) :
    (applyOpt (.withTimeout t) a).client = { transport := none, timeout := t } ∧
    (applyOpts [.withHTTPClient c, .withTimeout t] a).client
      = { transport := none, timeout := t } ∧
    (applyOpts [.withTimeout t, .withHTTPClient c] a).client = c := by
  refine ⟨rfl, rfl, rfl⟩

/-- C3 counterexample: supplying the explicit option `WithClientID ""` does
not take precedence over the environment value: because `New` only adopts
option-set credentials when they are non-empty, construction succeeds and the
constructed authenticator carries the environment client ID `"env-id"`, not
the option's value `""`. -/
theorem withClientID_empty_env_wins :
    (New { clientID := "env-id", clientSecret := "env-secret" } "r"
        [.withClientID ""]).map (fun a => a.config.clientID) = .ok "env-id" ∧
    ("env-id" : String) ≠ "" := by
  constructor
  · rfl
  · decide

/-- C3 (amended): an explicit client-identifier (or client-secret) option
with a NON-EMPTY value takes precedence over the corresponding environment
value, regardless of where it appears relative to other options that do not
set the same field; the precedence is visible in the resolved configuration
and in any successfully constructed authenticator. -/
theorem option_value_precedence (env : Env) (r : String) (l1 l2 : List Opt)
    (v : String) (hv : v ≠ "") :
    ((∀ o ∈ l1, setsClientID o = false) → (∀ o ∈ l2, setsClientID o = false) →
      (resolveNew env r (l1 ++ .withClientID v :: l2)).config.clientID = v ∧
      ∀ a, New env r (l1 ++ .withClientID v :: l2) = .ok a →
        a.config.clientID = v) ∧
    ((∀ o ∈ l1, setsClientSecret o = false) →
      (∀ o ∈ l2, setsClientSecret o = false) →
      (resolveNew env r (l1 ++ .withClientSecret v :: l2)).config.clientSecret = v ∧
      ∀ a, New env r (l1 ++ .withClientSecret v :: l2) = .ok a →
        a.config.clientSecret = v) := by
  constructor
  · intro h1 h2
    have hset : (applyOpts (l1 ++ .withClientID v :: l2)
        (initialAuth r)).config.clientID = v := by
      rw [applyOpts_append, applyOpts_cons,
        applyOpts_clientID_frame l2 _ h2]
      rfl
    have hres : (resolveNew env r (l1 ++ .withClientID v :: l2)).config.clientID = v := by
      simp only [resolveNew, hset]
      simp [hv]
    exact ⟨hres, fun a ha => by rw [New_ok_eq _ _ _ _ ha]; exact hres⟩
  · intro h1 h2
    have hset : (applyOpts (l1 ++ .withClientSecret v :: l2)
        (initialAuth r)).config.clientSecret = v := by
      rw [applyOpts_append, applyOpts_cons,
        applyOpts_clientSecret_frame l2 _ h2]
      rfl
    have hres : (resolveNew env r
        (l1 ++ .withClientSecret v :: l2)).config.clientSecret = v := by
      simp only [resolveNew, hset]
      simp [hv]
    exact ⟨hres, fun a ha => by rw [New_ok_eq _ _ _ _ ha]; exact hres⟩

/-- Witness for the amended C3: a client-ID option surrounded by unrelated
options still wins over the environment. -/
theorem option_value_precedence_witness :
    (resolveNew { clientID := "e", clientSecret := "s" } "r"
        ([.withScopes ["x"]] ++ .withClientID "opt-id" :: [.withRedirectURL "u"])
      ).config.clientID = "opt-id" :=
  ((option_value_precedence { clientID := "e", clientSecret := "s" } "r"
      [.withScopes ["x"]] [.withRedirectURL "u"] "opt-id" (by decide)).1
    (by decide) (by decide)).1

/-- C4: `New` validates the resolved credentials in order: an empty client
ID fails with the missing-client-ID error irrespective of the secret; a
non-empty client ID with an empty secret fails with the
missing-client-secret error; otherwise the resolved authenticator is
returned. -/
theorem new_credential_validation (env : Env) (r : String) (opts : List Opt) :
    ((resolveNew env r opts).config.clientID = "" →
      New env r opts = .error .missingClientID) ∧
    ((resolveNew env r opts).config.clientID ≠ "" →
      (resolveNew env r opts).config.clientSecret = "" →
      New env r opts = .error .missingClientSec) ∧
    ((resolveNew env r opts).config.clientID ≠ "" →
      (resolveNew env r opts).config.clientSecret ≠ "" →
      New env r opts = .ok (resolveNew env r opts)) := by
  refine ⟨?_, ?_, ?_⟩
  · intro h1
    simp [New, h1]
  · intro h1 h2
    simp [New, h1, h2]
  · intro h1 h2
    simp [New, h1, h2]

/-- Witness for C4: the three validation branches at concrete environments
(no options supplied). -/
theorem new_credential_validation_witness :
    New { clientID := "", clientSecret := "sec" } "r" []
        = .error .missingClientID ∧
    New { clientID := "id", clientSecret := "" } "r" []
        = .error .missingClientSec ∧
    New { clientID := "id", clientSecret := "sec" } "r" []
        = .ok (resolveNew { clientID := "id", clientSecret := "sec" } "r" []) := by
  refine ⟨?_, ?_, ?_⟩
  · exact (new_credential_validation { clientID := "", clientSecret := "sec" } "r" []).1
      (by decide)
  · exact (new_credential_validation { clientID := "id", clientSecret := "" } "r" []).2.1
      (by decide) (by decide)
  · exact (new_credential_validation { clientID := "id", clientSecret := "sec" } "r" []).2.2
      (by decide) (by decide)

/-- C7: supplying a non-empty scope list to `AuthURL` replaces the stored
scope set, and the replacement persists: a later call without explicit
scopes builds its URL from the replaced set. -/
theorem authURL_scopes_mutation_persists (a : Authenticator) (s1 s2 : String)
    (scopes : List String) (h : scopes ≠ []) :
    ((a.AuthURL s1 scopes).2).config.scopes = scopes ∧
    (((a.AuthURL s1 scopes).2).AuthURL s2 []).1
      = authCodeURL { a.config with scopes := scopes } s2 true := by
  have hlen : scopes.length > 0 := List.length_pos.mpr h
  constructor <;> simp [Authenticator.AuthURL, hlen]

/-- Witness for C7 at a concrete authenticator and scope list. -/
theorem authURL_scopes_mutation_persists_witness :
    ((testAuth.AuthURL "s1" ["user-library-read"]).2).config.scopes
        = ["user-library-read"] ∧
    (((testAuth.AuthURL "s1" ["user-library-read"]).2).AuthURL "s2" []).1
      = authCodeURL { testConfig with scopes := ["user-library-read"] } "s2" true :=
  authURL_scopes_mutation_persists testAuth "s1" "s2" ["user-library-read"]
    (by decide)

/-- C8: `Token` keeps no record of previously exchanged codes: two
sequential calls with the same valid code and matching state against an
endpoint answering identically both succeed with equal tokens, and the
authenticator is unchanged between them. -/
theorem token_no_replay_tracking (a : Authenticator) (state : String)
    (query : List (String × String))
    (exchange : HTTPClient → String → Except String OAuthToken) (t : OAuthToken)
    (herr : getQuery query "error" = "") (hcode : getQuery query "code" ≠ "")
    (hstate : getQuery query "state" = state)
    (hex : exchange a.client (getQuery query "code") = .ok t) :
    a.Token state query exchange = (.ok t, a) ∧
    ((a.Token state query exchange).2).Token state query exchange
      = (.ok t, a) := by
  have h1 : a.Token state query exchange = (.ok t, a) := by
    simp [Authenticator.Token, herr, hcode, hstate, hex]
  refine ⟨h1, ?_⟩
  rw [h1]
  exact h1

/-- Witness for C8: the same concrete exchange twice in a row. -/
theorem token_no_replay_tracking_witness :
    testAuth.Token "test-state" [("code", "test-code"), ("state", "test-state")]
        mockExchange = (.ok testToken, testAuth) ∧
    ((testAuth.Token "test-state" [("code", "test-code"), ("state", "test-state")]
        mockExchange).2).Token "test-state"
        [("code", "test-code"), ("state", "test-state")] mockExchange
      = (.ok testToken, testAuth) :=
  token_no_replay_tracking testAuth "test-state"
    [("code", "test-code"), ("state", "test-state")] mockExchange testToken
    (by decide) (by decide) (by decide) rfl

/-- `AuthURL` with no explicit scopes builds the URL from the stored
configuration. -/
theorem authURL_fst_no_scopes (a : Authenticator) (state : String) :
    (a.AuthURL state []).1 = authCodeURL a.config state true := by
  simp [Authenticator.AuthURL]

theorem amp_client_id_split : ("&client_id=" : String) = "&" ++ "client_id=" := rfl

theorem amp_redirect_split :
    ("&redirect_uri=" : String) = "&" ++ "redirect_uri=" := rfl

theorem amp_scope_split : ("&scope=" : String) = "&" ++ "scope=" := rfl

theorem amp_state_split : ("&state=" : String) = "&" ++ "state=" := rfl

theorem amp_offline_split :
    ("&access_type=offline" : String) = "&" ++ "access_type=offline" := rfl

/-- C5: a successfully constructed authenticator has non-empty client ID and
client secret, and the operations preserve this: `AuthURL` may change only
the stored scope set, and `Token`, `Client` and `TokenSource` return the
receiver unchanged. -/
theorem constructed_invariant_preserved (env : Env) (r : String) (opts : List Opt)
    (a : Authenticator) (h : New env r opts = .ok a) :
    (a.config.clientID ≠ "" ∧ a.config.clientSecret ≠ "") ∧
    (∀ state scopes,
      ((a.AuthURL state scopes).2).config.clientID = a.config.clientID ∧
      ((a.AuthURL state scopes).2).config.clientSecret = a.config.clientSecret ∧
      ((a.AuthURL state scopes).2).config.redirectURL = a.config.redirectURL ∧
      ((a.AuthURL state scopes).2).config.endpointAuthURL
          = a.config.endpointAuthURL ∧
      ((a.AuthURL state scopes).2).config.endpointTokenURL
          = a.config.endpointTokenURL ∧
      ((a.AuthURL state scopes).2).client = a.client) ∧
    (∀ state query exchange, (a.Token state query exchange).2 = a) ∧
    (∀ token, (a.Client token).2 = a) ∧
    (∀ token, (a.TokenSource token).2 = a) := by
  have ha := New_ok_eq env r opts a h
  subst ha
  refine ⟨⟨?_, ?_⟩, ?_, ?_, ?_, ?_⟩
  · intro hz
    simp [New, hz] at h
  · intro hz
    by_cases hid0 : (resolveNew env r opts).config.clientID = "" <;>
      simp [New, hid0, hz] at h
  · intro state scopes
    by_cases hl : scopes.length > 0 <;>
      simp [Authenticator.AuthURL, hl]
  · intro state query exchange
    simp only [Authenticator.Token]
    repeat' split
    all_goals rfl
  · intro token
    rfl
  · intro token
    rfl

/-- Witness for C5: credentials of a concretely constructed authenticator
are non-empty. -/
theorem constructed_invariant_preserved_witness :
    (resolveNew { clientID := "id", clientSecret := "sec" } "r" []).config.clientID
        ≠ "" ∧
    (resolveNew { clientID := "id", clientSecret := "sec" } "r"
        []).config.clientSecret ≠ "" :=
  (constructed_invariant_preserved { clientID := "id", clientSecret := "sec" } "r" []
    (resolveNew { clientID := "id", clientSecret := "sec" } "r" []) rfl).1

/-- C6: for every state string, the URL returned by `AuthURL` embeds, as
contiguous substrings, the configured client identifier, the configured
redirect URL, the current scope set (space-joined), the caller-supplied
state string — each prefixed by its query-parameter name — and the
offline-access request marker. -/
theorem authURL_embeds_fields (a : Authenticator) (state : String) :
    (∃ x y, (a.AuthURL state []).1 = x ++ ("client_id=" ++ a.config.clientID) ++ y) ∧
    (∃ x y, (a.AuthURL state []).1
        = x ++ ("redirect_uri=" ++ a.config.redirectURL) ++ y) ∧
    (∃ x y, (a.AuthURL state []).1
        = x ++ ("scope=" ++ String.intercalate " " a.config.scopes) ++ y) ∧
    (∃ x y, (a.AuthURL state []).1 = x ++ ("state=" ++ state) ++ y) ∧
    (∃ x y, (a.AuthURL state []).1 = x ++ "access_type=offline" ++ y) := by
  have hu := authURL_fst_no_scopes a state
  refine ⟨?_, ?_, ?_, ?_, ?_⟩
  · refine ⟨a.config.endpointAuthURL ++ "?response_type=code" ++ "&",
      "&redirect_uri=" ++ a.config.redirectURL ++ "&scope=" ++
        String.intercalate " " a.config.scopes ++ "&state=" ++ state ++
        "&access_type=offline", ?_⟩
    rw [hu]
    simp only [authCodeURL, if_true]
    rw [amp_client_id_split]
    simp only [str_append_assoc]
  · refine ⟨a.config.endpointAuthURL ++ "?response_type=code" ++ "&client_id=" ++
      a.config.clientID ++ "&",
      "&scope=" ++ String.intercalate " " a.config.scopes ++ "&state=" ++ state ++
        "&access_type=offline", ?_⟩
    rw [hu]
    simp only [authCodeURL, if_true]
    rw [amp_redirect_split]
    simp only [str_append_assoc]
  · refine ⟨a.config.endpointAuthURL ++ "?response_type=code" ++ "&client_id=" ++
      a.config.clientID ++ "&redirect_uri=" ++ a.config.redirectURL ++ "&",
      "&state=" ++ state ++ "&access_type=offline", ?_⟩
    rw [hu]
    simp only [authCodeURL, if_true]
    rw [amp_scope_split]
    simp only [str_append_assoc]
  · refine ⟨a.config.endpointAuthURL ++ "?response_type=code" ++ "&client_id=" ++
      a.config.clientID ++ "&redirect_uri=" ++ a.config.redirectURL ++ "&scope=" ++
      String.intercalate " " a.config.scopes ++ "&",
      "&access_type=offline", ?_⟩
    rw [hu]
    simp only [authCodeURL, if_true]
    rw [amp_state_split]
    simp only [str_append_assoc]
  · refine ⟨a.config.endpointAuthURL ++ "?response_type=code" ++ "&client_id=" ++
      a.config.clientID ++ "&redirect_uri=" ++ a.config.redirectURL ++ "&scope=" ++
      String.intercalate " " a.config.scopes ++ "&state=" ++ state ++ "&",
      "", ?_⟩
    rw [hu]
    simp only [authCodeURL, if_true]
    rw [amp_offline_split]
    simp only [str_append_assoc, String.append_empty]

end Spotify
